import Mathlib

/-!
Shallow embedding of `src/scoresbibm/scoresbibm/methods/neural_nets.py`.

The file defines three model factories: `conditional_mlp`,
`scalar_transformer_model` and `structured_transformer_model`.  Arrays are
embedded as shape-carrying structures over `ℚ` (shape fields plus a total
indexing function); the external library collaborators (probjax's
`ScalarTokenizer`, `GaussianFourierEmbedding`, `Transformer`, haiku's
`Linear`, `LayerNorm` and the `transform` machinery) are not part of the
repository and are modelled from the spec as parameterized stand-ins.
Python exceptions are embedded with `Except`: an operation that can raise
returns `Except String _`, and statement sequencing is `Except.bind`.
-/

namespace SBM

/-- A batched scalar vector, e.g. the diffusion time `t` of shape `(batch,)`. -/
@[ext]
structure Vec where
  len : ℕ
  val : ℕ → ℚ

/-- A rank-2 array, e.g. `data_id` or `condition_mask` of shape `(rows, cols)`. -/
@[ext]
structure Mat where
  rows : ℕ
  cols : ℕ
  val : ℕ → ℕ → ℚ

/-- A rank-3 array, e.g. `data` of shape `(batch, nodes, channels)`. -/
@[ext]
structure T3 where
  batch : ℕ
  nodes : ℕ
  dim : ℕ
  val : ℕ → ℕ → ℕ → ℚ

/-- `f 0 + ... + f (n - 1)`: the summation underlying dense layers and the
attention stand-in. -/
def rsum (n : ℕ) (f : ℕ → ℚ) : ℚ := ((List.range n).map f).sum

/-- Number of elements of a rank-2 array. -/
def size2 (m : Mat) : ℕ := m.rows * m.cols

/-- Number of elements of a rank-3 array. -/
def size3 (x : T3) : ℕ := x.batch * x.nodes * x.dim

/-- The value of `m.reshape(-1, n)` when the reshape is legal: row-major
re-chunking of the flattened data into rows of length `n`. -/
def reshapedMat (m : Mat) (n : ℕ) : Mat :=
  ⟨size2 m / n, n, fun i j => m.val ((i * n + j) / m.cols) ((i * n + j) % m.cols)⟩

/-- numpy `m.reshape(-1, n)`: legal when `n` is nonzero and divides the number
of elements, otherwise it raises. -/
def reshapeM (m : Mat) (n : ℕ) : Except String Mat :=
  if n ≠ 0 ∧ n ∣ size2 m then Except.ok (reshapedMat m n) else Except.error "cannot reshape"

/-- The value of `x.reshape(-1, n, d)` when the reshape is legal: row-major
re-chunking of the flattened data. -/
def reshaped3 (x : T3) (n d : ℕ) : T3 :=
  ⟨size3 x / (n * d), n, d, fun b i k =>
    x.val ((b * (n * d) + i * d + k) / (x.nodes * x.dim))
      ((b * (n * d) + i * d + k) % (x.nodes * x.dim) / x.dim)
      ((b * (n * d) + i * d + k) % x.dim)⟩

/-- numpy `x.reshape(-1, n, d)`: legal when `n * d` is nonzero and divides the
number of elements, otherwise it raises. -/
def reshape3M (x : T3) (n d : ℕ) : Except String T3 :=
  if n * d ≠ 0 ∧ (n * d) ∣ size3 x then Except.ok (reshaped3 x n d)
  else Except.error "cannot reshape"

/-- Embeds the `try/except` block of `scalar_transformer_model.model` (source
lines 97-101): the reshape of the tokens is attempted; on success the result is
bound (to a variable that is never read afterwards), and on failure the
handler prints the error and the statement completes normally, so no exception
escapes the block either way. -/
def guardedReshapeOutcome (x : T3) (n d : ℕ) : Except String Unit :=
  match reshape3M x n d with
  | Except.ok _ => Except.ok ()
  | Except.error _ => Except.ok ()

/-- `True`/`ok` test for an embedded Python computation. -/
def exceptOk {α : Type} : Except String α → Bool
  | Except.ok _ => true
  | Except.error _ => false

/-! ### Stand-ins for the external library collaborators

The spec excludes these from the repository ("all external library
collaborators"); they are modelled from the spec's descriptions, with learned
weights passed in explicitly. -/

/-- Metadata channel lookup used by the tokenizer stand-in: `0` when no
`meta_data` is supplied. -/
def metaVal : Option T3 → ℕ → ℕ → ℚ
  | none, _, _ => 0
  | some m, b, i => m.val b i 0

/-- Modelled from the spec: `GaussianFourierEmbedding(dim)` (external
`probjax.nn.helpers`), "a fixed (non-learned-frequency) Fourier feature
encoding of the scalar diffusion time".  `g` is the frozen feature map from a
time value to the `dim` features; the output has shape `(batch, dim)`. -/
def gaussianFourier (dim : ℕ) (g : ℚ → ℕ → ℚ) (t : Vec) : Mat :=
  ⟨t.len, dim, fun b k => g (t.val b) k⟩

/-- Modelled from the spec: `ScalarTokenizer(token_dim, num_nodes)` (external
`probjax.nn.tokenizer`), which "maps a per-node scalar value and identity into
a fixed-width embedding vector" of width `tokenDim`, with an optional
structured metadata channel.  `f` is the learned embedding map from
(node id, node value, metadata value) to the token features; `numNodes` is the
identity vocabulary size, which the stand-in leaves abstract inside `f`.
Output shape: `(batch, nodes, tokenDim)`. -/
def scalarTokenizer (tokenDim numNodes : ℕ) (f : ℚ → ℚ → ℚ → ℕ → ℚ)
    (ids : Mat) (data : T3) (meta : Option T3) : T3 :=
  ⟨data.batch, data.nodes, tokenDim, fun b i k =>
    f (ids.val b i) (data.val b i 0) (metaVal meta b i) k⟩

/-- Attention weight taken from the optional edge mask: an absent mask lets
every token pair attend (weight `1`). -/
def maskVal (m : Option Mat) (i j : ℕ) : ℚ :=
  match m with
  | none => 1
  | some mm => mm.val i j

/-- Modelled from the spec: `Transformer` (external `probjax.nn.transformers`),
"a masked transformer over the token sequence" with the time embedding "as side
context" and an edge mask "restricting which token pairs may attend".  The
stand-in is one attention-style mixing layer: each output feature combines the
token's own feature, a mask-weighted sum of the other tokens' features, and
the context; it preserves the `(batch, nodes, width)` shape.  The architectural
hyperparameters of the real block (`num_heads`, `num_layers`, `attn_size`,
`widening_factor`, `num_hidden_layers`, activation, skip connections) select
among functions of this same abstract form and are absorbed into the learned
coefficients `a`, `b`, `c`. -/
def transformerF (a b c : ℚ) (tokens : T3) (ctx : Mat) (mask : Option Mat) : T3 :=
  ⟨tokens.batch, tokens.nodes, tokens.dim, fun bi i k =>
    a * tokens.val bi i k
      + b * rsum tokens.nodes (fun j => maskVal mask i j * tokens.val bi j k)
      + c * rsum ctx.cols (fun k2 => ctx.val bi k2)⟩

/-- Modelled from the spec: the final `hk.Linear(1)` projection (external
haiku dense layer) applied tokenwise, "project each output token to a scalar".
`w` are the learned weights and `b0` the bias; output shape `(batch, nodes, 1)`. -/
def linear1 (w : ℕ → ℚ) (b0 : ℚ) (h : T3) : T3 :=
  ⟨h.batch, h.nodes, 1, fun bi i _ => b0 + rsum h.dim (fun j => w j * h.val bi i j)⟩

/-- Concatenation of two feature vectors along the last axis (`jnp.concatenate
([x, context], axis=-1)` for rank-1 features). -/
def concatV (v w : Vec) : Vec :=
  ⟨v.len + w.len, fun k => if k < v.len then v.val k else w.val (k - v.len)⟩

/-- Elementwise sum of two feature vectors. -/
def addV (v w : Vec) : Vec := ⟨v.len, fun k => v.val k + w.val k⟩

/-- Elementwise activation. -/
def mapV (f : ℚ → ℚ) (v : Vec) : Vec := ⟨v.len, fun k => f (v.val k)⟩

/-- Modelled from the spec: `hk.Linear(dout)` (external haiku dense layer) on a
feature vector, with learned weights `w` and bias `b`. -/
def linearV (dout : ℕ) (w : ℕ → ℕ → ℚ) (b : ℕ → ℚ) (v : Vec) : Vec :=
  ⟨dout, fun k => b k + rsum v.len (fun j => w k j * v.val j)⟩

/-- Mean of a feature vector, used by the normalization stand-in. -/
def meanV (v : Vec) : ℚ := rsum v.len v.val / (v.len : ℚ)

/-- Modelled from the spec: `hk.LayerNorm(axis=-1, create_scale=True,
create_offset=True)` (external haiku), the "optional per-layer normalization":
the features are centered and transformed by a learned scale `g` and offset
`b`. -/
def layerNormV (g b : ℚ) (v : Vec) : Vec :=
  ⟨v.len, fun k => (v.val k - meanV v) * g + b⟩

/-! ### `conditional_mlp` (source lines 13-46) -/

/-- Factory arguments of `conditional_mlp` (source lines 13-21); the Python
defaults are `hidden_dim=100`, `num_hidden=8`, `activation=jax.nn.gelu`,
`layer_norm=True`. -/
structure MLPConfig where
  output_dim : ℕ
  hidden_dim : ℕ
  num_hidden : ℕ
  activation : ℚ → ℚ
  layer_norm : Bool

/-- The learned parameters of `score_net`: per-layer dense weights `w l` and
biases `b l` (layer `0` is the first hidden layer, layer `l + 1` the `l`-th
layer of the loop), per-iteration layer-norm scale and offset, the Fourier
time-embedding feature map, and the final dense layer's weights and bias. -/
structure MLPParams where
  w : ℕ → ℕ → ℕ → ℚ
  b : ℕ → ℕ → ℚ
  lnScale : ℕ → ℚ
  lnOffset : ℕ → ℚ
  timeg : ℚ → ℕ → ℚ
  wOut : ℕ → ℕ → ℚ
  bOut : ℕ → ℚ

/-- `score_net` up to and including the final dense layer (source lines
27-41): concatenate `x` and `context`, embed the time once, run the first
hidden layer (activation, no normalization), then `num_hidden - 1` further
hidden layers, each adding the same time embedding to the pre-activation,
applying the activation, and, when `layer_norm` is set, a layer
normalization; finally project to `output_dim`. -/
def score_netOut (cfg : MLPConfig) (θ : MLPParams) (t : ℚ) (x ctx : Vec) : Vec :=
  let x1 := concatV x ctx
  let te : Vec := ⟨cfg.hidden_dim, fun k => θ.timeg t k⟩
  let h0 := mapV cfg.activation (addV (linearV cfg.hidden_dim (θ.w 0) (θ.b 0) x1) te)
  let h := (List.range (cfg.num_hidden - 1)).foldl (fun h l =>
    let hAct := mapV cfg.activation
      (addV (linearV cfg.hidden_dim (θ.w (l + 1)) (θ.b (l + 1)) h) te)
    if cfg.layer_norm then layerNormV (θ.lnScale l) (θ.lnOffset l) hAct else hAct) h0
  linearV cfg.output_dim θ.wOut θ.bOut h

/-- `score_net` (source lines 27-43): the dense stack followed by the output
rescaling `out = output_scale_fn(t, out)`. -/
def score_net (cfg : MLPConfig) (scaleF : ℚ → Vec → Vec) (θ : MLPParams)
    (t : ℚ) (x ctx : Vec) : Vec :=
  scaleF t (score_netOut cfg θ t x ctx)

/-- Resolution of the `output_scale_fn=None` default (source lines 24-25):
a missing rescaling function becomes the identity `lambda t, x: x`. -/
def resolveScaleV (s : Option (ℚ → Vec → Vec)) : ℚ → Vec → Vec :=
  s.getD (fun _ x => x)

/-- Modelled from the spec: the parameter-initializer produced by
`hk.without_apply_rng(hk.transform(score_net))` (external haiku machinery,
source line 45) — "parameters are created once at initialization".  The
stand-in builds a deterministic parameter structure from the seed-independent
initializer means. -/
def mlpInit (cfg : MLPConfig) : ℕ → MLPParams :=
  fun _ => ⟨fun _ _ _ => 0, fun _ _ => 0, fun _ => 1, fun _ => 0,
    fun _ _ => 0, fun _ _ => 0, fun _ => 0⟩

/-- The apply function produced for `score_net` by
`hk.without_apply_rng(hk.transform(...))` (source line 45): the network with
its parameters passed explicitly. -/
def mlpApply (cfg : MLPConfig) (s : Option (ℚ → Vec → Vec)) :
    MLPParams → ℚ → Vec → Vec → Vec :=
  fun θ t x ctx => score_net cfg (resolveScaleV s) θ t x ctx

/-- `conditional_mlp` (source lines 13-46): resolves the rescaling default and
returns the `(init_fn, apply_fn)` pair. -/
def conditional_mlp (cfg : MLPConfig) (s : Option (ℚ → Vec → Vec)) :
    (ℕ → MLPParams) × (MLPParams → ℚ → Vec → Vec → Vec) :=
  (mlpInit cfg, mlpApply cfg s)

/-- Modelled from the spec's words, for comparison with `score_netOut`: the
spec describes "a stack of dense layers ... with optional layer normalization
after each activation when layer_norm is set", i.e. normalization following
EVERY activation, the first hidden layer's included (the first normalization
here uses the parameter index `0` and the loop's iteration `l` the index
`l + 1`). -/
def score_netSpecC8 (cfg : MLPConfig) (scaleF : ℚ → Vec → Vec) (θ : MLPParams)
    (t : ℚ) (x ctx : Vec) : Vec :=
  let x1 := concatV x ctx
  let te : Vec := ⟨cfg.hidden_dim, fun k => θ.timeg t k⟩
  let h0a := mapV cfg.activation (addV (linearV cfg.hidden_dim (θ.w 0) (θ.b 0) x1) te)
  let h0 := if cfg.layer_norm then layerNormV (θ.lnScale 0) (θ.lnOffset 0) h0a else h0a
  let h := (List.range (cfg.num_hidden - 1)).foldl (fun h l =>
    let hAct := mapV cfg.activation
      (addV (linearV cfg.hidden_dim (θ.w (l + 1)) (θ.b (l + 1)) h) te)
    if cfg.layer_norm then layerNormV (θ.lnScale (l + 1)) (θ.lnOffset (l + 1)) hAct
    else hAct) h0
  scaleF t (linearV cfg.output_dim θ.wOut θ.bOut h)

/-- Modelled from the spec's words as amended: the same stack, but layer
normalization follows each activation EXCEPT the first hidden layer's
(normalization happens only inside the repeated layers). -/
def score_netSpecC8Amended (cfg : MLPConfig) (scaleF : ℚ → Vec → Vec)
    (θ : MLPParams) (t : ℚ) (x ctx : Vec) : Vec :=
  let x1 := concatV x ctx
  let te : Vec := ⟨cfg.hidden_dim, fun k => θ.timeg t k⟩
  let h0 := mapV cfg.activation (addV (linearV cfg.hidden_dim (θ.w 0) (θ.b 0) x1) te)
  let h := (List.range (cfg.num_hidden - 1)).foldl (fun h l =>
    let hAct := mapV cfg.activation
      (addV (linearV cfg.hidden_dim (θ.w (l + 1)) (θ.b (l + 1)) h) te)
    if cfg.layer_norm then layerNormV (θ.lnScale l) (θ.lnOffset l) hAct else hAct) h0
  scaleF t (linearV cfg.output_dim θ.wOut θ.bOut h)

/-! ### `scalar_transformer_model` (source lines 49-148) and
`structured_transformer_model` (source lines 151-243) -/

/-- Factory arguments shared by the two transformer factories (source lines
49-68 and 151-174). -/
structure STConfig where
  num_nodes : ℕ
  token_dim : ℕ
  condition_token_dim : ℕ
  condition_token_init_scale : ℚ
  condition_token_init_mean : ℚ
  condition_mode : String
  time_embedding_dim : ℕ
  num_heads : ℕ
  num_layers : ℕ
  attn_size : ℕ
  widening_factor : ℕ
  num_hidden_layers : ℕ
  act : ℚ → ℚ
  skip_connection_attn : Bool
  skip_connection_mlp : Bool
  layer_norm : Bool
  base_mask : Option Mat

/-- The learned parameters of the transformer models: the tokenizer embedding
map, the Fourier time-feature map, the learned `condition_token` vector
(shape `[1, 1, condition_token_dim]`), the transformer stand-in's mixing
coefficients, and the final `hk.Linear(1)` weights and bias. -/
structure STParams where
  tokf : ℚ → ℚ → ℚ → ℕ → ℚ
  timef : ℚ → ℕ → ℚ
  conditionToken : ℕ → ℚ
  ta : ℚ
  tb : ℚ
  tc : ℚ
  outW : ℕ → ℚ
  outB : ℚ

/-- Replace only the learned `condition_token` of a parameter set. -/
def setCondTok (θ : STParams) (g : ℕ → ℚ) : STParams :=
  ⟨θ.tokf, θ.timef, g, θ.ta, θ.tb, θ.tc, θ.outW, θ.outB⟩

/-- The token-width adjustment both factories perform before defining `model`
(source lines 73-80 and 179-186): `concat` keeps both widths, `add` widens the
tokenizer to `token_dim + condition_token_dim` and makes the condition token
that same width, `none` widens the tokenizer likewise and drops the condition
token; any other mode string leaves both widths unchanged.  Returns the pair
(adjusted `token_dim`, adjusted `condition_token_dim`). -/
def adjustDims (mode : String) (tokenDim conditionTokenDim : ℕ) : ℕ × ℕ :=
  if mode = "concat" then (tokenDim, conditionTokenDim)
  else if mode = "add" then (tokenDim + conditionTokenDim, tokenDim + conditionTokenDim)
  else if mode = "none" then (tokenDim + conditionTokenDim, 0)
  else (tokenDim, conditionTokenDim)

/-- `jnp.broadcast_to` of a rank-3 array to leading shape `(b, n)`: axes of
extent `1` are replicated. -/
def broadcastTo3 (x : T3) (b n : ℕ) : T3 :=
  ⟨b, n, x.dim, fun bi i k =>
    x.val (if x.batch = 1 then 0 else bi) (if x.nodes = 1 then 0 else i) k⟩

/-- Elementwise sum of two rank-3 arrays of equal shape (broadcast addition of
`tokens + condition_token` in `add` mode, where both widths coincide). -/
def add3 (x y : T3) : T3 :=
  ⟨x.batch, x.nodes, x.dim, fun b i k => x.val b i k + y.val b i k⟩

/-- Concatenation of two rank-3 arrays along the last axis
(`jnp.concatenate([tokens, condition_token], -1)`). -/
def concat3 (x y : T3) : T3 :=
  ⟨x.batch, x.nodes, x.dim + y.dim, fun b i k =>
    if k < x.dim then x.val b i k else y.val b i (k - x.dim)⟩

/-- The conditioning block of both transformer models (source lines 107-123
and 207-223): when the mode is not `none`, the learned `condition_token` is
gated by the condition mask (reshaped to `(batch, nodes, 1)`) and merged into
the tokens, by elementwise addition in `add` mode or by broadcasting to the
tokens' leading shape and concatenation along the last axis in `concat` mode;
any other non-`none` mode, and mode `none`, leave the tokens unchanged. -/
def stCondTokens (mode : String) (ctd : ℕ) (θ : STParams) (tokens : T3)
    (condMask2 : Mat) : T3 :=
  if mode ≠ "none" then
    let gated : T3 := ⟨condMask2.rows, condMask2.cols, ctd, fun bi i k =>
      condMask2.val bi i * θ.conditionToken k⟩
    if mode = "add" then add3 tokens gated
    else if mode = "concat" then
      concat3 tokens (broadcastTo3 gated tokens.batch tokens.nodes)
    else tokens
  else tokens

/-- Everything the transformer models compute after the input reshapes, up to
and before the output rescaling (source lines 89-142): tokenize, embed the
time, run the conditioning block, run the masked transformer with the time
embedding as context, and project each token to a scalar. -/
def stResult (mode : String) (td ctd nn tdim : ℕ) (θ : STParams) (t : Vec)
    (data : T3) (dataId2 condMask2 : Mat) (meta : Option T3) (em : Option Mat) : T3 :=
  let tokens0 := scalarTokenizer td nn θ.tokf dataId2 data meta
  let time := gaussianFourier tdim θ.timef t
  let tokens := stCondTokens mode ctd θ tokens0 condMask2
  let h := transformerF θ.ta θ.tb θ.tc tokens time em
  linear1 θ.outW θ.outB h

/-- The inner `model` of `scalar_transformer_model` (source lines 82-145),
with the factory-adjusted widths `td`, `ctd` passed explicitly: reshape
`data_id` and `condition_mask` to `(-1, current_nodes)` (raising on an illegal
reshape), attempt the guarded diagnostic reshape of the tokens (source lines
97-101, whose outcome is bound but never read), then compute the score and
apply the output rescaling `out = output_scale_fn(t, out)`. -/
def stModel (mode : String) (td ctd nn tdim : ℕ) (scaleF : Vec → T3 → T3)
    (θ : STParams) (t : Vec) (data : T3) (dataId condMask : Mat)
    (meta : Option T3) (em : Option Mat) : Except String T3 :=
  (reshapeM dataId data.nodes).bind (fun dataId2 =>
    (reshapeM condMask data.nodes).bind (fun condMask2 =>
      (guardedReshapeOutcome (scalarTokenizer td nn θ.tokf dataId2 data meta)
          data.nodes td).bind (fun _ =>
        Except.ok (scaleF t (stResult mode td ctd nn tdim θ t data dataId2 condMask2 meta em)))))

/-- The inner model with the guarded diagnostic reshape deleted, for
comparison with `stModel`: otherwise the identical computation. -/
def stModelNoReshape (mode : String) (td ctd nn tdim : ℕ) (scaleF : Vec → T3 → T3)
    (θ : STParams) (t : Vec) (data : T3) (dataId condMask : Mat)
    (meta : Option T3) (em : Option Mat) : Except String T3 :=
  (reshapeM dataId data.nodes).bind (fun dataId2 =>
    (reshapeM condMask data.nodes).bind (fun condMask2 =>
      Except.ok (scaleF t (stResult mode td ctd nn tdim θ t data dataId2 condMask2 meta em))))

/-- The inner model up to and before the output rescaling: it ends with the
final `hk.Linear(1)` projection. -/
def stModelOut (mode : String) (td ctd nn tdim : ℕ) (θ : STParams) (t : Vec)
    (data : T3) (dataId condMask : Mat) (meta : Option T3) (em : Option Mat) :
    Except String T3 :=
  (reshapeM dataId data.nodes).bind (fun dataId2 =>
    (reshapeM condMask data.nodes).bind (fun condMask2 =>
      (guardedReshapeOutcome (scalarTokenizer td nn θ.tokf dataId2 data meta)
          data.nodes td).bind (fun _ =>
        Except.ok (stResult mode td ctd nn tdim θ t data dataId2 condMask2 meta em))))

/-- Resolution of the `output_scale_fn=None` default (source lines 70-71 and
176-177). -/
def resolveScaleT (s : Option (Vec → T3 → T3)) : Vec → T3 → T3 :=
  s.getD (fun _ x => x)

/-- Modelled from the spec: the parameter-initializer produced by
`hk.without_apply_rng(hk.transform(model))` (external haiku machinery, source
line 147).  The stand-in builds a deterministic parameter structure; the
learned `condition_token` starts at the `RandomNormal` initializer's mean
(source lines 111-113). -/
def stInit (cfg : STConfig) : ℕ → STParams :=
  fun _ => ⟨fun _ _ _ _ => 0, fun _ _ => 0, fun _ => cfg.condition_token_init_mean,
    1, 1, 1, fun _ => 1, 0⟩

/-- The apply function of `scalar_transformer_model`: the inner `model` at the
factory-adjusted widths, with the resolved output rescaling. -/
def stApply (cfg : STConfig) (s : Option (Vec → T3 → T3)) :
    STParams → Vec → T3 → Mat → Mat → Option T3 → Option Mat → Except String T3 :=
  fun θ t data dataId condMask meta em =>
    stModel cfg.condition_mode
      (adjustDims cfg.condition_mode cfg.token_dim cfg.condition_token_dim).1
      (adjustDims cfg.condition_mode cfg.token_dim cfg.condition_token_dim).2
      cfg.num_nodes cfg.time_embedding_dim (resolveScaleT s)
      θ t data dataId condMask meta em

/-- `scalar_transformer_model` (source lines 49-148): adjusts the token
widths, defines the inner model, and returns the `(init_fn, apply_fn)` pair
produced by `hk.without_apply_rng(hk.transform(model))`. -/
def scalar_transformer_model (cfg : STConfig) (s : Option (Vec → T3 → T3)) :
    (ℕ → STParams) ×
      (STParams → Vec → T3 → Mat → Mat → Option T3 → Option Mat → Except String T3) :=
  (stInit cfg, stApply cfg s)

/-- The inner `model` of `structured_transformer_model` (source lines
188-243): its body is the scalar variant's (same reshapes, same
`ScalarTokenizer` call with the `meta_data` channel, same conditioning block,
transformer, projection and rescaling), differing only in diagnostic prints. -/
def structuredModel : String → (td ctd nn tdim : ℕ) → (Vec → T3 → T3) →
    STParams → Vec → T3 → Mat → Mat → Option T3 → Option Mat → Except String T3 :=
  stModel

/-- `structured_transformer_model` (source lines 151-243): the body resolves
the rescaling default, adjusts the token widths and defines the inner model
(embedded as `structuredModel`), but the function ends without a `return`
statement — the `hk.transform` lines present in the scalar factory (source
lines 147-148) are missing — so the Python call returns `None`, embedded as
`none`. -/
def structured_transformer_model (cfg : STConfig) (dataNameToId : List (String × ℕ))
    (s : Option (Vec → T3 → T3)) :
    Option ((ℕ → STParams) ×
      (STParams → Vec → T3 → Mat → Mat → Option T3 → Option Mat → Except String T3)) :=
  none

/-! ### Concrete sample inputs used to instantiate the theorems -/

/-- A one-element time batch. -/
def vec1 : Vec := ⟨1, fun _ => 1⟩

/-- A `(1, 1, 1)` data tensor. -/
def data1 : T3 := ⟨1, 1, 1, fun _ _ _ => 1⟩

/-- A `(1, 1)` array of ones (a node-id array, or an all-ones condition mask). -/
def mat1 : Mat := ⟨1, 1, fun _ _ => 1⟩

/-- A `(1, 1)` all-zero condition mask: same shape as `mat1`, different values. -/
def matZ : Mat := ⟨1, 1, fun _ _ => 0⟩

/-- A concrete transformer-model parameter set with nontrivial values. -/
def stP1 : STParams :=
  ⟨fun a v m k => a + v + m + (k : ℚ), fun a k => a + (k : ℚ), fun k => (k : ℚ) + 1,
    1, 1, 1, fun _ => 1, 0⟩

/-- A factory configuration with `condition_mode="none"`. -/
def cfgModeNone : STConfig :=
  ⟨1, 1, 1, 1/100, 0, "none", 1, 8, 6, 5, 4, 1, fun q => q, true, true, true, none⟩

/-- A factory configuration with `condition_mode="add"`. -/
def cfgModeAdd : STConfig :=
  ⟨1, 1, 1, 1/100, 0, "add", 1, 8, 6, 5, 4, 1, fun q => q, true, true, true, none⟩

/-- A factory configuration with `condition_mode="concat"` and
`token_dim = condition_token_dim = 0`, making the guarded token reshape
target shape `(-1, nodes, 0)` illegal. -/
def cfgZeroWidth : STConfig :=
  ⟨1, 0, 0, 1/100, 0, "concat", 1, 8, 6, 5, 4, 1, fun q => q, true, true, true, none⟩

/-- The MLP configuration of the C8 counterexample: one hidden layer
(`num_hidden = 1`), identity activation, `layer_norm=True`. -/
def cfgC8 : MLPConfig := ⟨1, 1, 1, fun q => q, true⟩

/-- The MLP parameters of the C8 counterexample: unit dense weights, zero
biases and time features, layer-norm scale `1` and offset `5`. -/
def paramsC8 : MLPParams :=
  ⟨fun _ _ _ => 1, fun _ _ => 0, fun _ => 1, fun _ => 5, fun _ _ => 0,
    fun _ _ => 1, fun _ => 0⟩

/-- A length-1 input feature vector. -/
def xC8 : Vec := ⟨1, fun _ => 1⟩

/-- An empty context vector. -/
def ctxC8 : Vec := ⟨0, fun _ => 0⟩

end SBM

namespace SBM

/-! ### Helper lemmas -/

theorem except_bind_congr {α β : Type} (x : Except String α)
    (f g : α → Except String β) (h : ∀ a, f a = g a) : x.bind f = x.bind g := by
  cases x with
  | error e => rfl
  | ok a => exact h a

theorem except_map_bind {α β γ : Type} (g : β → γ) (x : Except String α)
    (f : α → Except String β) :
    Except.map g (x.bind f) = x.bind (fun a => Except.map g (f a)) := by
  cases x <;> rfl

theorem guardedOutcome_eq_ok (x : T3) (n d : ℕ) :
    guardedReshapeOutcome x n d = Except.ok () := by
  unfold guardedReshapeOutcome
  cases reshape3M x n d <;> rfl

theorem reshapeM_pos (m : Mat) (n : ℕ) (h : n ≠ 0 ∧ n ∣ size2 m) :
    reshapeM m n = Except.ok (reshapedMat m n) := by
  unfold reshapeM
  exact if_pos h

theorem reshapeM_neg (m : Mat) (n : ℕ) (h : ¬(n ≠ 0 ∧ n ∣ size2 m)) :
    reshapeM m n = Except.error "cannot reshape" := by
  unfold reshapeM
  exact if_neg h

theorem stCondTokens_batch (mode : String) (ctd : ℕ) (θ : STParams) (tokens : T3)
    (cm : Mat) : (stCondTokens mode ctd θ tokens cm).batch = tokens.batch := by
  simp only [stCondTokens]
  split_ifs <;> rfl

theorem stCondTokens_nodes (mode : String) (ctd : ℕ) (θ : STParams) (tokens : T3)
    (cm : Mat) : (stCondTokens mode ctd θ tokens cm).nodes = tokens.nodes := by
  simp only [stCondTokens]
  split_ifs <;> rfl

theorem stCondTokens_none_eq (ctd : ℕ) (θ : STParams) (tokens : T3) (cm : Mat) :
    stCondTokens "none" ctd θ tokens cm = tokens := by
  simp only [stCondTokens]
  rw [if_neg]
  simp

theorem stResult_batch (mode : String) (td ctd nn tdim : ℕ) (θ : STParams) (t : Vec)
    (data : T3) (d2 c2 : Mat) (meta : Option T3) (em : Option Mat) :
    (stResult mode td ctd nn tdim θ t data d2 c2 meta em).batch = data.batch := by
  simp only [stResult, linear1, transformerF]
  rw [stCondTokens_batch]
  rfl

theorem stResult_nodes (mode : String) (td ctd nn tdim : ℕ) (θ : STParams) (t : Vec)
    (data : T3) (d2 c2 : Mat) (meta : Option T3) (em : Option Mat) :
    (stResult mode td ctd nn tdim θ t data d2 c2 meta em).nodes = data.nodes := by
  simp only [stResult, linear1, transformerF]
  rw [stCondTokens_nodes]
  rfl

theorem stResult_dim (mode : String) (td ctd nn tdim : ℕ) (θ : STParams) (t : Vec)
    (data : T3) (d2 c2 : Mat) (meta : Option T3) (em : Option Mat) :
    (stResult mode td ctd nn tdim θ t data d2 c2 meta em).dim = 1 := rfl

theorem stModel_ok (mode : String) (td ctd nn tdim : ℕ) (scaleF : Vec → T3 → T3)
    (θ : STParams) (t : Vec) (data : T3) (dataId condMask : Mat) (meta : Option T3)
    (em : Option Mat) (hn : data.nodes ≠ 0)
    (h1 : data.nodes ∣ size2 dataId) (h2 : data.nodes ∣ size2 condMask) :
    stModel mode td ctd nn tdim scaleF θ t data dataId condMask meta em =
      Except.ok (scaleF t (stResult mode td ctd nn tdim θ t data
        (reshapedMat dataId data.nodes) (reshapedMat condMask data.nodes) meta em)) := by
  simp only [stModel, reshapeM_pos _ _ ⟨hn, h1⟩, reshapeM_pos _ _ ⟨hn, h2⟩,
    guardedOutcome_eq_ok]
  rfl

theorem stModel_err_id (mode : String) (td ctd nn tdim : ℕ) (scaleF : Vec → T3 → T3)
    (θ : STParams) (t : Vec) (data : T3) (dataId condMask : Mat) (meta : Option T3)
    (em : Option Mat) (h : ¬(data.nodes ≠ 0 ∧ data.nodes ∣ size2 dataId)) :
    stModel mode td ctd nn tdim scaleF θ t data dataId condMask meta em =
      Except.error "cannot reshape" := by
  simp only [stModel, reshapeM_neg _ _ h]
  rfl

theorem stModel_err_cm (mode : String) (td ctd nn tdim : ℕ) (scaleF : Vec → T3 → T3)
    (θ : STParams) (t : Vec) (data : T3) (dataId condMask : Mat) (meta : Option T3)
    (em : Option Mat) (hn : data.nodes ≠ 0) (h1 : data.nodes ∣ size2 dataId)
    (h : ¬(data.nodes ≠ 0 ∧ data.nodes ∣ size2 condMask)) :
    stModel mode td ctd nn tdim scaleF θ t data dataId condMask meta em =
      Except.error "cannot reshape" := by
  simp only [stModel, reshapeM_pos _ _ ⟨hn, h1⟩, reshapeM_neg _ _ h]
  rfl

theorem reshapedMat_zero (m : Mat) (n : ℕ) (hz : ∀ i j, m.val i j = 0) :
    ∀ i j, (reshapedMat m n).val i j = 0 := by
  intro i j
  exact hz _ _

theorem stCondTokens_zero_indep (mode : String) (ctd : ℕ) (θ : STParams) (g : ℕ → ℚ)
    (tok : T3) (cm : Mat) (hz : ∀ i j, cm.val i j = 0) :
    stCondTokens mode ctd (setCondTok θ g) tok cm = stCondTokens mode ctd θ tok cm := by
  simp only [stCondTokens, setCondTok]
  split_ifs
  · refine T3.ext rfl rfl rfl ?_
    funext b i k
    simp only [add3, hz, zero_mul]
  · refine T3.ext rfl rfl rfl ?_
    funext b i k
    simp only [concat3, broadcastTo3]
    split_ifs <;> first | rfl | simp only [hz, zero_mul]
  · rfl
  · rfl

theorem stCondTokens_add_zero (ctd : ℕ) (θ : STParams) (tok : T3) (cm : Mat)
    (hz : ∀ i j, cm.val i j = 0) : stCondTokens "add" ctd θ tok cm = tok := by
  have h : stCondTokens "add" ctd θ tok cm =
      add3 tok ⟨cm.rows, cm.cols, ctd, fun bi i k => cm.val bi i * θ.conditionToken k⟩ := by
    simp [stCondTokens]
  rw [h]
  refine T3.ext rfl rfl rfl ?_
  funext b i k
  simp only [add3, hz, zero_mul, add_zero]

theorem stResult_zero_indep (mode : String) (td ctd nn tdim : ℕ) (θ : STParams)
    (g : ℕ → ℚ) (t : Vec) (data : T3) (d2 c2 : Mat) (meta : Option T3)
    (em : Option Mat) (hz : ∀ i j, c2.val i j = 0) :
    stResult mode td ctd nn tdim (setCondTok θ g) t data d2 c2 meta em =
      stResult mode td ctd nn tdim θ t data d2 c2 meta em := by
  simp only [stResult]
  rw [show (setCondTok θ g).tokf = θ.tokf from rfl,
    show (setCondTok θ g).timef = θ.timef from rfl,
    show (setCondTok θ g).ta = θ.ta from rfl,
    show (setCondTok θ g).tb = θ.tb from rfl,
    show (setCondTok θ g).tc = θ.tc from rfl,
    show (setCondTok θ g).outW = θ.outW from rfl,
    show (setCondTok θ g).outB = θ.outB from rfl,
    stCondTokens_zero_indep _ _ _ _ _ _ hz]

theorem stResult_add_eq_none (td ctd ctd2 nn tdim : ℕ) (θ : STParams) (t : Vec)
    (data : T3) (d2 c2 : Mat) (meta : Option T3) (em : Option Mat)
    (hz : ∀ i j, c2.val i j = 0) :
    stResult "add" td ctd nn tdim θ t data d2 c2 meta em =
      stResult "none" td ctd2 nn tdim θ t data d2 c2 meta em := by
  simp only [stResult]
  rw [stCondTokens_add_zero _ _ _ _ hz, stCondTokens_none_eq]

theorem stResult_none_mask_indep (td ctd nn tdim : ℕ) (θ : STParams) (t : Vec)
    (data : T3) (d2 c2 c2' : Mat) (meta : Option T3) (em : Option Mat) :
    stResult "none" td ctd nn tdim θ t data d2 c2 meta em =
      stResult "none" td ctd nn tdim θ t data d2 c2' meta em := by
  simp only [stResult]
  rw [stCondTokens_none_eq, stCondTokens_none_eq]

theorem stResult_none_param_indep (td ctd nn tdim : ℕ) (θ : STParams) (g : ℕ → ℚ)
    (t : Vec) (data : T3) (d2 c2 : Mat) (meta : Option T3) (em : Option Mat) :
    stResult "none" td ctd nn tdim (setCondTok θ g) t data d2 c2 meta em =
      stResult "none" td ctd nn tdim θ t data d2 c2 meta em := by
  simp only [stResult]
  rw [show (setCondTok θ g).tokf = θ.tokf from rfl,
    show (setCondTok θ g).timef = θ.timef from rfl,
    show (setCondTok θ g).ta = θ.ta from rfl,
    show (setCondTok θ g).tb = θ.tb from rfl,
    show (setCondTok θ g).tc = θ.tc from rfl,
    show (setCondTok θ g).outW = θ.outW from rfl,
    show (setCondTok θ g).outB = θ.outB from rfl,
    stCondTokens_none_eq, stCondTokens_none_eq]

/-! ### The claims -/

/-- C1: each of the three factory functions returns a pair (parameter
initializer, apply function).  This holds for `conditional_mlp` and
`scalar_transformer_model`; `structured_transformer_model`, whose body ends
without a return statement, instead returns `None` for every argument — the
code bug the last conjunct evaluates. -/
theorem C1_factories_return_pairs :
    ∀ (cfgM : MLPConfig) (sM : Option (ℚ → Vec → Vec)) (cfg cfg2 : STConfig)
      (sT sT2 : Option (Vec → T3 → T3)) (d : List (String × ℕ)),
    conditional_mlp cfgM sM = (mlpInit cfgM, mlpApply cfgM sM)
      ∧ scalar_transformer_model cfg sT = (stInit cfg, stApply cfg sT)
      ∧ structured_transformer_model cfg2 d sT2 = none :=
  fun _ _ _ _ _ _ _ => ⟨rfl, rfl, rfl⟩

/-- C10: the guarded token reshape's result is never used — deleting the
guarded reshape from the inner model leaves the returned score unchanged on
every input (in particular whenever the guarded reshape succeeds). -/
theorem C10_guarded_reshape_unused (mode : String) (td ctd nn tdim : ℕ)
    (scaleF : Vec → T3 → T3) (θ : STParams) (t : Vec) (data : T3)
    (dataId condMask : Mat) (meta : Option T3) (em : Option Mat) :
    stModel mode td ctd nn tdim scaleF θ t data dataId condMask meta em =
      stModelNoReshape mode td ctd nn tdim scaleF θ t data dataId condMask meta em := by
  simp only [stModel, stModelNoReshape]
  refine except_bind_congr _ _ _ (fun d2 => ?_)
  refine except_bind_congr _ _ _ (fun c2 => ?_)
  rw [guardedOutcome_eq_ok]
  rfl

/-- C7 (counterexample): the claim says a failing guarded reshape still
propagates the exception to the caller.  At this concrete input (token width
`0`, so the guarded reshape of the tokens to shape `(-1, 1, 0)` raises) the
apply function of the factory nevertheless returns normally: the handler
swallows the exception. -/
theorem C7_counterexample :
    exceptOk (reshape3M (scalarTokenizer 0 1 stP1.tokf (reshapedMat mat1 1) data1 none) 1 0)
        = false
      ∧ exceptOk (stApply cfgZeroWidth none stP1 vec1 data1 mat1 mat1 none none) = true :=
  ⟨rfl, rfl⟩

/-- C7 (amended): the `try/except` wrapped reshape does not alter control
flow because the handler catches the exception: whether the reshape succeeds
or raises, the guarded statement completes normally (the diagnostic is only
printed), so no exception propagates from it. -/
theorem C7_guarded_reshape_never_raises :
    ∀ (x : T3) (n d : ℕ), guardedReshapeOutcome x n d = Except.ok () :=
  fun x n d => guardedOutcome_eq_ok x n d

/-- C9: for each defined condition mode, the width of the token vectors
entering the transformer equals the sum of the factory arguments `token_dim`
and `condition_token_dim`: `concat` appends a `condition_token_dim`-wide gated
token to `token_dim`-wide tokens, while `add` and `none` widen the tokenizer
output to `token_dim + condition_token_dim` up front. -/
theorem C9_transformer_input_width (mode : String)
    (h : mode = "concat" ∨ mode = "add" ∨ mode = "none")
    (tokenDim conditionTokenDim nn : ℕ) (θ : STParams) (ids : Mat) (data : T3)
    (meta : Option T3) (cm : Mat) :
    (stCondTokens mode (adjustDims mode tokenDim conditionTokenDim).2 θ
        (scalarTokenizer (adjustDims mode tokenDim conditionTokenDim).1 nn θ.tokf
          ids data meta) cm).dim
      = tokenDim + conditionTokenDim := by
  rcases h with h | h | h <;> subst h <;>
    simp [adjustDims, stCondTokens, scalarTokenizer, concat3, add3, broadcastTo3]

/-- C9 (witness): the width invariant evaluated in `concat` mode at
`token_dim = 2`, `condition_token_dim = 3`. -/
theorem C9_transformer_input_width_witness :
    (stCondTokens "concat" (adjustDims "concat" 2 3).2 stP1
        (scalarTokenizer (adjustDims "concat" 2 3).1 1 stP1.tokf mat1 data1 none)
        mat1).dim
      = 2 + 3 :=
  C9_transformer_input_width "concat" (Or.inl rfl) 2 3 1 stP1 mat1 data1 none mat1

/-- C2: for every valid input (`data` of shape `(batch, nodes, 1)` with
node-id and condition-mask arrays of matching total size, and a
shape-preserving output rescaling), the apply functions of both transformer
models return a score whose leading `(batch, nodes)` shape matches the input
data tensor, with one scalar per node per batch element. -/
theorem C2_output_score_shape (mode : String) (td ctd nn tdim : ℕ)
    (scaleF : Vec → T3 → T3)
    (hscale : ∀ tv x, (scaleF tv x).batch = x.batch ∧ (scaleF tv x).nodes = x.nodes
      ∧ (scaleF tv x).dim = x.dim)
    (θ : STParams) (t : Vec) (data : T3) (dataId condMask : Mat)
    (meta : Option T3) (em : Option Mat) (hn : data.nodes ≠ 0)
    (hid : size2 dataId = data.batch * data.nodes)
    (hcm : size2 condMask = data.batch * data.nodes) :
    (∃ out, stModel mode td ctd nn tdim scaleF θ t data dataId condMask meta em
        = Except.ok out
      ∧ out.batch = data.batch ∧ out.nodes = data.nodes ∧ out.dim = 1)
    ∧ (∃ out, structuredModel mode td ctd nn tdim scaleF θ t data dataId condMask meta em
        = Except.ok out
      ∧ out.batch = data.batch ∧ out.nodes = data.nodes ∧ out.dim = 1) := by
  have h1 : data.nodes ∣ size2 dataId := by rw [hid]; exact dvd_mul_left _ _
  have h2 : data.nodes ∣ size2 condMask := by rw [hcm]; exact dvd_mul_left _ _
  have key := stModel_ok mode td ctd nn tdim scaleF θ t data dataId condMask meta em hn h1 h2
  refine ⟨⟨_, key, ?_, ?_, ?_⟩, ⟨_, key, ?_, ?_, ?_⟩⟩ <;>
    first
      | (rw [(hscale _ _).1]; apply stResult_batch)
      | (rw [(hscale _ _).2.1]; apply stResult_nodes)
      | (rw [(hscale _ _).2.2]; apply stResult_dim)

/-- C2 (witness): the shape invariant evaluated on a concrete `(1, 1, 1)`
input with the identity rescaling. -/
theorem C2_output_score_shape_witness :
    (∃ out, stModel "concat" 1 1 1 1 (fun _ x => x) stP1 vec1 data1 mat1 mat1 none none
        = Except.ok out
      ∧ out.batch = data1.batch ∧ out.nodes = data1.nodes ∧ out.dim = 1)
    ∧ (∃ out, structuredModel "concat" 1 1 1 1 (fun _ x => x) stP1 vec1 data1 mat1 mat1 none none
        = Except.ok out
      ∧ out.batch = data1.batch ∧ out.nodes = data1.nodes ∧ out.dim = 1) :=
  C2_output_score_shape "concat" 1 1 1 1 (fun _ x => x) (fun _ _ => ⟨rfl, rfl, rfl⟩)
    stP1 vec1 data1 mat1 mat1 none none (by decide) rfl rfl

/-- C3: the apply functions are deterministic pure tensor functions — two
calls with the same parameters and (pointwise) identical input tuples
`(t, data, data_id, condition_mask, meta_data, edge_mask)` return identical
outputs, for the scalar and the structured inner model alike. -/
theorem C3_apply_deterministic (mode : String) (td ctd nn tdim : ℕ)
    (scaleF : Vec → T3 → T3) (θ : STParams) (tA tB : Vec) (dA dB : T3)
    (idA idB cmA cmB : Mat) (meta : Option T3) (em : Option Mat)
    (ht1 : tA.len = tB.len) (ht2 : ∀ i, tA.val i = tB.val i)
    (hb : dA.batch = dB.batch) (hn : dA.nodes = dB.nodes) (hd : dA.dim = dB.dim)
    (hv : ∀ b i k, dA.val b i k = dB.val b i k)
    (hir : idA.rows = idB.rows) (hic : idA.cols = idB.cols)
    (hiv : ∀ i j, idA.val i j = idB.val i j)
    (hcr : cmA.rows = cmB.rows) (hcc : cmA.cols = cmB.cols)
    (hcv : ∀ i j, cmA.val i j = cmB.val i j) :
    stModel mode td ctd nn tdim scaleF θ tA dA idA cmA meta em
        = stModel mode td ctd nn tdim scaleF θ tB dB idB cmB meta em
      ∧ structuredModel mode td ctd nn tdim scaleF θ tA dA idA cmA meta em
        = structuredModel mode td ctd nn tdim scaleF θ tB dB idB cmB meta em := by
  have e1 : tA = tB := Vec.ext ht1 (funext ht2)
  have e2 : dA = dB :=
    T3.ext hb hn hd (funext fun b => funext fun i => funext fun k => hv b i k)
  have e3 : idA = idB := Mat.ext hir hic (funext fun i => funext fun j => hiv i j)
  have e4 : cmA = cmB := Mat.ext hcr hcc (funext fun i => funext fun j => hcv i j)
  subst e1
  subst e2
  subst e3
  subst e4
  exact ⟨rfl, rfl⟩

/-- C3 (witness): determinism evaluated at two syntactically different but
pointwise identical concrete inputs. -/
theorem C3_apply_deterministic_witness :
    stModel "concat" 1 1 1 1 (fun _ x => x) stP1 vec1 data1 mat1 mat1 none none
        = stModel "concat" 1 1 1 1 (fun _ x => x) stP1 ⟨1, fun _ => 1 + 0⟩ data1 mat1 mat1 none none
      ∧ structuredModel "concat" 1 1 1 1 (fun _ x => x) stP1 vec1 data1 mat1 mat1 none none
        = structuredModel "concat" 1 1 1 1 (fun _ x => x) stP1 ⟨1, fun _ => 1 + 0⟩ data1 mat1 mat1 none none :=
  C3_apply_deterministic "concat" 1 1 1 1 (fun _ x => x) stP1 vec1 ⟨1, fun _ => 1 + 0⟩
    data1 data1 mat1 mat1 mat1 mat1 none none rfl (fun _ => by simp [vec1])
    rfl rfl rfl (fun _ _ _ => rfl) rfl rfl (fun _ _ => rfl) rfl rfl (fun _ _ => rfl)

/-- C4: when the factory is built with `condition_mode="none"`, no
condition-token parameter is merged into the node tokens — the apply
function's output is unchanged when the learned `condition_token` is replaced
by any other vector — and the output is independent of the condition mask's
values beyond its shape. -/
theorem C4_mode_none_no_conditioning (cfg : STConfig) (hm : cfg.condition_mode = "none")
    (s : Option (Vec → T3 → T3)) (θ : STParams) (g : ℕ → ℚ) (t : Vec) (data : T3)
    (dataId m1 m2 : Mat) (hr : m1.rows = m2.rows) (hc : m1.cols = m2.cols)
    (meta : Option T3) (em : Option Mat) :
    stApply cfg s (setCondTok θ g) t data dataId m1 meta em
      = stApply cfg s θ t data dataId m2 meta em := by
  simp only [stApply, hm]
  by_cases h1 : data.nodes ≠ 0 ∧ data.nodes ∣ size2 dataId
  · by_cases h2 : data.nodes ≠ 0 ∧ data.nodes ∣ size2 m1
    · have h2' : data.nodes ≠ 0 ∧ data.nodes ∣ size2 m2 := by
        refine ⟨h2.1, ?_⟩
        simp only [size2]
        rw [← hr, ← hc]
        exact h2.2
      rw [stModel_ok _ _ _ _ _ _ _ _ _ _ _ _ _ h1.1 h1.2 h2.2,
        stModel_ok _ _ _ _ _ _ _ _ _ _ _ _ _ h1.1 h1.2 h2'.2,
        stResult_none_param_indep,
        stResult_none_mask_indep _ _ _ _ _ _ _ _ (reshapedMat m2 data.nodes)]
    · have h2' : ¬(data.nodes ≠ 0 ∧ data.nodes ∣ size2 m2) := by
        intro hx
        refine h2 ⟨hx.1, ?_⟩
        simp only [size2]
        rw [hr, hc]
        exact hx.2
      rw [stModel_err_cm _ _ _ _ _ _ _ _ _ _ _ _ _ h1.1 h1.2 h2,
        stModel_err_cm _ _ _ _ _ _ _ _ _ _ _ _ _ h1.1 h1.2 h2']
  · rw [stModel_err_id _ _ _ _ _ _ _ _ _ _ _ _ _ h1,
      stModel_err_id _ _ _ _ _ _ _ _ _ _ _ _ _ h1]

/-- C4 (witness): in `none` mode, replacing the condition token by the
constant `42` and the all-ones mask by the all-zero mask of the same shape
leaves the output unchanged. -/
theorem C4_mode_none_no_conditioning_witness :
    stApply cfgModeNone none (setCondTok stP1 (fun _ => 42)) vec1 data1 mat1 mat1 none none
      = stApply cfgModeNone none stP1 vec1 data1 mat1 matZ none none :=
  C4_mode_none_no_conditioning cfgModeNone rfl none stP1 (fun _ => 42) vec1 data1
    mat1 mat1 matZ rfl rfl none none

/-- C5: with an all-zero condition mask the gated condition token contributes
nothing: the output does not depend on the learned condition-token values (for
any mode — in `add` mode zero is added to every token, in `concat` mode only
zeros are appended), and in `add` mode the output equals that of the inner
model with conditioning omitted (mode `none` at the same tokenizer width). -/
theorem C5_zero_mask_no_conditioning (mode : String) (td ctd ctd2 nn tdim : ℕ)
    (scaleF : Vec → T3 → T3) (θ : STParams) (g : ℕ → ℚ) (t : Vec) (data : T3)
    (dataId cm : Mat) (hz : ∀ i j, cm.val i j = 0) (meta : Option T3)
    (em : Option Mat) :
    stModel mode td ctd nn tdim scaleF (setCondTok θ g) t data dataId cm meta em
        = stModel mode td ctd nn tdim scaleF θ t data dataId cm meta em
      ∧ stModel "add" td ctd nn tdim scaleF θ t data dataId cm meta em
        = stModel "none" td ctd2 nn tdim scaleF θ t data dataId cm meta em := by
  constructor
  · by_cases h1 : data.nodes ≠ 0 ∧ data.nodes ∣ size2 dataId
    · by_cases h2 : data.nodes ≠ 0 ∧ data.nodes ∣ size2 cm
      · rw [stModel_ok _ _ _ _ _ _ _ _ _ _ _ _ _ h1.1 h1.2 h2.2,
          stModel_ok _ _ _ _ _ _ _ _ _ _ _ _ _ h1.1 h1.2 h2.2,
          stResult_zero_indep _ _ _ _ _ _ _ _ _ _ _ _ _ (reshapedMat_zero _ _ hz)]
      · rw [stModel_err_cm _ _ _ _ _ _ _ _ _ _ _ _ _ h1.1 h1.2 h2,
          stModel_err_cm _ _ _ _ _ _ _ _ _ _ _ _ _ h1.1 h1.2 h2]
    · rw [stModel_err_id _ _ _ _ _ _ _ _ _ _ _ _ _ h1,
        stModel_err_id _ _ _ _ _ _ _ _ _ _ _ _ _ h1]
  · by_cases h1 : data.nodes ≠ 0 ∧ data.nodes ∣ size2 dataId
    · by_cases h2 : data.nodes ≠ 0 ∧ data.nodes ∣ size2 cm
      · rw [stModel_ok _ _ _ _ _ _ _ _ _ _ _ _ _ h1.1 h1.2 h2.2,
          stModel_ok _ _ _ _ _ _ _ _ _ _ _ _ _ h1.1 h1.2 h2.2,
          stResult_add_eq_none _ _ ctd2 _ _ _ _ _ _ _ _ _ (reshapedMat_zero _ _ hz)]
      · rw [stModel_err_cm _ _ _ _ _ _ _ _ _ _ _ _ _ h1.1 h1.2 h2,
          stModel_err_cm _ _ _ _ _ _ _ _ _ _ _ _ _ h1.1 h1.2 h2]
    · rw [stModel_err_id _ _ _ _ _ _ _ _ _ _ _ _ _ h1,
        stModel_err_id _ _ _ _ _ _ _ _ _ _ _ _ _ h1]

/-- C5 (witness): with the all-zero `(1, 1)` mask, replacing the condition
token by the constant `42` leaves the `concat`-mode output unchanged, and the
`add`-mode output equals the conditioning-free (`none`) output. -/
theorem C5_zero_mask_no_conditioning_witness :
    stModel "concat" 1 1 1 1 (fun _ x => x) (setCondTok stP1 (fun _ => 42)) vec1 data1 mat1 matZ none none
        = stModel "concat" 1 1 1 1 (fun _ x => x) stP1 vec1 data1 mat1 matZ none none
      ∧ stModel "add" 1 1 1 1 (fun _ x => x) stP1 vec1 data1 mat1 matZ none none
        = stModel "none" 1 0 1 1 (fun _ x => x) stP1 vec1 data1 mat1 matZ none none :=
  C5_zero_mask_no_conditioning "concat" 1 1 0 1 1 (fun _ x => x) stP1 (fun _ => 42)
    vec1 data1 mat1 matZ (fun _ _ => rfl) none none

/-- C6: in every apply function the output-rescaling function is applied
exactly once, to the result of the final linear projection — the rescaled
apply equals the rescaling composed with the unscaled model ending in the
final projection — and when `output_scale_fn` is `None` it defaults to the
identity, so the returned score is the final projection unchanged. -/
theorem C6_output_scale_applied_once (cfgM : MLPConfig) (f : ℚ → Vec → Vec)
    (θm : MLPParams) (t : ℚ) (x ctx : Vec) (cfg : STConfig) (fT : Vec → T3 → T3)
    (θ : STParams) (tv : Vec) (data : T3) (dataId condMask : Mat)
    (meta : Option T3) (em : Option Mat) :
    mlpApply cfgM (some f) θm t x ctx = f t (score_netOut cfgM θm t x ctx)
      ∧ mlpApply cfgM none θm t x ctx = score_netOut cfgM θm t x ctx
      ∧ stApply cfg (some fT) θ tv data dataId condMask meta em
        = Except.map (fT tv)
            (stModelOut cfg.condition_mode
              (adjustDims cfg.condition_mode cfg.token_dim cfg.condition_token_dim).1
              (adjustDims cfg.condition_mode cfg.token_dim cfg.condition_token_dim).2
              cfg.num_nodes cfg.time_embedding_dim θ tv data dataId condMask meta em)
      ∧ stApply cfg none θ tv data dataId condMask meta em
        = stModelOut cfg.condition_mode
            (adjustDims cfg.condition_mode cfg.token_dim cfg.condition_token_dim).1
            (adjustDims cfg.condition_mode cfg.token_dim cfg.condition_token_dim).2
            cfg.num_nodes cfg.time_embedding_dim θ tv data dataId condMask meta em
      ∧ structuredModel cfg.condition_mode
            (adjustDims cfg.condition_mode cfg.token_dim cfg.condition_token_dim).1
            (adjustDims cfg.condition_mode cfg.token_dim cfg.condition_token_dim).2
            cfg.num_nodes cfg.time_embedding_dim (fun _ v => v) θ tv data dataId condMask meta em
        = stModelOut cfg.condition_mode
            (adjustDims cfg.condition_mode cfg.token_dim cfg.condition_token_dim).1
            (adjustDims cfg.condition_mode cfg.token_dim cfg.condition_token_dim).2
            cfg.num_nodes cfg.time_embedding_dim θ tv data dataId condMask meta em := by
  refine ⟨rfl, rfl, ?_, rfl, rfl⟩
  simp only [stApply, resolveScaleT, Option.getD]
  simp only [stModel, stModelOut, except_map_bind]
  rfl

/-- C8 (counterexample): `conditional_mlp` with `num_hidden = 1` and
`layer_norm=True` applies no layer normalization at all — the stack described
by the claim, with normalization after each activation, gives `5` at this
input where the code gives `1`. -/
theorem C8_counterexample :
    (score_net cfgC8 (fun _ v => v) paramsC8 0 xC8 ctxC8).val 0
      ≠ (score_netSpecC8 cfgC8 (fun _ v => v) paramsC8 0 xC8 ctxC8).val 0 := by
  have h1 : (score_net cfgC8 (fun _ v => v) paramsC8 0 xC8 ctxC8).val 0 = 1 := by
    simp [score_net, score_netOut, cfgC8, paramsC8, xC8, ctxC8, concatV, addV,
      mapV, linearV, rsum, List.range_succ]
  have h2 : (score_netSpecC8 cfgC8 (fun _ v => v) paramsC8 0 xC8 ctxC8).val 0 = 5 := by
    simp [score_netSpecC8, cfgC8, paramsC8, xC8, ctxC8, concatV, addV, mapV,
      linearV, layerNormV, meanV, rsum, List.range_succ]
  rw [h1, h2]
  norm_num

/-- C8 (amended): `conditional_mlp`'s score network computes the
concatenation of `x` and `context`, a stack of `num_hidden` dense layers of
width `hidden_dim` with the same time embedding added to every hidden layer's
pre-activation, optional layer normalization after each activation EXCEPT the
first hidden layer's, and a final dense layer to `output_dim` followed by the
output rescaling. -/
theorem C8_mlp_structure_amended :
    ∀ (cfg : MLPConfig) (scaleF : ℚ → Vec → Vec) (θ : MLPParams) (t : ℚ) (x ctx : Vec),
    score_net cfg scaleF θ t x ctx = score_netSpecC8Amended cfg scaleF θ t x ctx :=
  fun _ _ _ _ _ _ => rfl

end SBM
